import Mathlib

/-!
Verification of the tech-writer application (src/tech-writer.py).

The Python program is shallowly embedded: file-system access, environment
variables and the Ollama transport become explicit parameters (a path is
mapped to a file outcome, an environment variable name to an optional value,
the server calls to outcome values), and each function's observable effects
(Streamlit display calls, the mutated candidate-path list, logged failures)
become explicit components of its result.
-/

/-- One entry of a YAML `messages` list: `role` and `content` keys, each
possibly absent (`none` = key absent). -/
structure YamlMsg where
  role : Option String
  content : Option String
deriving DecidableEq, Repr

/-- The shape of a parsed prompts.yaml document, restricted to the keys the
program reads: top-level `host` and `model` (string values, possibly empty)
and a `messages` list of role/content mappings. `none` = key absent. -/
structure YamlDoc where
  host : Option String
  model : Option String
  messages : Option (List YamlMsg)
deriving DecidableEq, Repr

/-- The document with no keys, i.e. the empty dict `{}` that
`yaml.safe_load(f) or {}` produces for an empty or null file. -/
def emptyYaml : YamlDoc := ⟨none, none, none⟩

/-- Outcome of opening and `yaml.safe_load`-ing one candidate path:
the file may be missing (`FileNotFoundError`), malformed (`yaml.YAMLError`),
fail otherwise, or parse to a document (`Option.none` models a YAML null /
empty file, which `or \x7b\x7d` turns into the empty mapping). -/
inductive FileResult where
  | missing
  | yamlError (msg : String)
  | otherError (msg : String)
  | parsed (doc : Option YamlDoc)
deriving DecidableEq, Repr

/-- The file system: maps each path to what opening and parsing it yields. -/
def FS : Type := String → FileResult

/-- The process environment: `os.getenv` semantics — `none` when the
variable is unset, `some v` (possibly `some ""`) when it is set. -/
def Env : Type := String → Option String

/-- The configuration dict built by `load_config`: keys `host`, `model`,
`system`. -/
structure Config where
  host : String
  model : String
  system : String
deriving DecidableEq, Repr

/-- The hard-coded default system prompt (src/tech-writer.py line 24). -/
def default_system_prompt : String :=
  "You are an advanced model trained to identify and correct English language spelling and grammar errors while enhancing the clarity and conciseness of professional communication. Please review the text provided below, determine if there are spelling and/or grammar errors, correct them if you find them, revise the content for clarity and conciseness without altering the original meaning.  Respond back to this prompt with two sections.  The first section shall shall be titled Revised Text:, and contain your revised text.  The second section shall be titled Corrections:, and contain an bulletized list highlighting the spelling and grammar corrections you made. If you cannot make corrections to the provided text, just say the provided text is correct. Finally, please emit your response in markdown format so it can be streamed inside a web application. From a styling perspective, when you generate the section headers, use level two markup, e.g., ## Revised Text:, ## Corrections:. \n            "

/-- `set_defaults` (src/tech-writer.py lines 20-26). -/
def set_defaults : Config :=
  { host := "localhost:11434"
    model := "llama3.2:1b"
    system := default_system_prompt }

/-- The `while filepath_list:` loop of `load_yaml_file` (lines 31-42):
pop paths from the front one by one; a successful parse overwrites
`yaml_config` wholly (there is no `break`, so the loop always consumes the
entire list); a missing/malformed file is logged and skipped. Returns the
final `yaml_config` together with the final (emptied) `filepath_list`. -/
def yaml_while (fs : FS) : List String → YamlDoc → YamlDoc × List String
  | [], yaml_config => (yaml_config, [])
  | filename :: rest, yaml_config =>
    match fs filename with
    | .parsed (some d) => yaml_while fs rest d
    | .parsed none => yaml_while fs rest emptyYaml
    | .missing => yaml_while fs rest yaml_config
    | .yamlError _ => yaml_while fs rest yaml_config
    | .otherError _ => yaml_while fs rest yaml_config

/-- `load_yaml_file` (lines 28-51): run the loop, then extract `host`,
`model`, and the system prompt (taken from `messages[0].content` only when
`messages` is a non-empty list whose first entry has role `"system"` and
truthy content). Returns the updated config and the final state of the
caller's `filepath_list`. -/
def load_yaml_file (fs : FS) (config : Config) (filepath_list : List String) :
    Config × List String :=
  let (yaml_config, rest) := yaml_while fs filepath_list emptyYaml
  let host := yaml_config.host.getD config.host
  let model := yaml_config.model.getD config.model
  let system :=
    match yaml_config.messages with
    | some (m0 :: _) =>
      if m0.role = some "system" then
        match m0.content with
        | some c => if c = "" then config.system else c
        | none => config.system
      else config.system
    | _ => config.system
  (⟨host, model, system⟩, rest)

/-- `load_env` (lines 53-57): `os.getenv(name, current)` returns the
variable's value whenever it is set — including when it is set to the
empty string — and the current value only when it is unset. -/
def load_env (env : Env) (config : Config) : Config :=
  { config with
    host := (env "OLLAMA_HOST").getD config.host
    model := (env "MODEL_NAME").getD config.model }

/-- `load_config` (lines 12-65): defaults, then YAML, then environment.
The second component is the final state of the caller's `filepath_list`. -/
def load_config (fs : FS) (env : Env) (filepath_list : List String) :
    Config × List String :=
  let config := set_defaults
  let (config, rest) := load_yaml_file fs config filepath_list
  (load_env env config, rest)

/-- Outcome of the `ollama.ps()` probe in `check_ollama_status`:
success, an `ollama.ResponseError`, or any other exception. -/
inductive PsResult where
  | ok
  | responseError (msg : String)
  | otherError (msg : String)
deriving DecidableEq, Repr

/-- `check_ollama_status` (lines 82-97): `status = True`; a successful
`ollama.ps()` sets it to `False`; both `except` arms log and return the
initial `True`. Total by construction — every probe outcome yields a
boolean, none re-raises. -/
def check_ollama_status (r : PsResult) : Bool :=
  let status := true
  match r with
  | .ok => false
  | .responseError _ => status
  | .otherError _ => status

/-- One entry of the model list returned by `ollama.list()`: a dict (whose
`model` and `name` keys may each be absent or hold any string), an object
with a `model` attribute, or anything else. -/
inductive ModelEntry where
  | dict (model : Option String) (name : Option String)
  | obj (model : String)
  | other
deriving DecidableEq, Repr

/-- The response of `ollama.list()`: `models?` is `some` exactly when the
`models` key is present in the response. -/
structure ListResponse where
  models? : Option (List ModelEntry)
deriving DecidableEq, Repr

/-- Outcome of the `ollama.list()` call: an exception (either `except` arm)
or a response. -/
inductive ListResult where
  | err (msg : String)
  | ok (resp : ListResponse)
deriving DecidableEq, Repr

/-- Python truthiness filter on an optional string: `None` and `""` are
falsy. -/
def truthy : Option String → Option String
  | some s => if s = "" then none else some s
  | none => none

/-- Python `a or b` on two optional strings (`m.get('model') or
m.get('name')`, line 131): the left value unless it is falsy. -/
def pyOr (a b : Option String) : Option String :=
  match a with
  | some s => if s = "" then b else some s
  | none => b

/-- The name a single catalog entry yields (lines 128-133): for a dict,
`m.get('model') or m.get('name')`; for an object with a `model` attribute,
that attribute; otherwise `None`. -/
def entry_raw_name : ModelEntry → Option String
  | .dict m n => pyOr m n
  | .obj s => some s
  | .other => none

/-- The `for m in model_list` loop building `model_names` (lines 126-135):
append the entry's name when it is truthy (`if model_name:`), skip the
entry otherwise. -/
def model_names_loop : List ModelEntry → List String → List String
  | [], model_names => model_names
  | m :: rest, model_names =>
    match truthy (entry_raw_name m) with
    | some s => model_names_loop rest (model_names ++ [s])
    | none => model_names_loop rest model_names

/-- `check_model_status` (lines 99-147): listing failure → `None`; missing
`models` key → `None`; otherwise build `model_names`; empty list → `None`;
requested model not in the list → substitute the first entry; else keep the
requested model. -/
def check_model_status (model : String) (lr : ListResult) : Option String :=
  match lr with
  | .err _ => none
  | .ok response =>
    match response.models? with
    | none => none
    | some model_list =>
      match model_names_loop model_list [] with
      | [] => none
      | n0 :: rest =>
        if model ∉ n0 :: rest then
          some n0
        else
          some model

/-- One chat message as built by `query_ollama` (lines 158-161). -/
structure ChatMessage where
  role : String
  content : String
deriving DecidableEq, Repr

/-- One event of the streamed `ollama.chat` iteration: a fragment carrying
`part['message']['content']`, or an exception raised mid-iteration. -/
inductive StreamEvent where
  | chunk (content : String)
  | err (msg : String)
deriving DecidableEq, Repr

/-- Observable outcome of `query_ollama`: the two messages sent, the final
`accumulated_text`, the sequence of `output_placeholder.markdown` display
calls (in order), and the error logged by an `except` arm, if any. -/
structure QueryResult where
  messages : List ChatMessage
  accumulated : String
  displays : List String
  errorLogged : Option String
deriving DecidableEq, Repr

/-- The `for part in ollama.chat(...)` loop of `query_ollama`
(lines 168-179), carrying `accumulated_text` and the display-call trace:
a non-empty fragment is appended and the full accumulated text is
displayed; an empty fragment is skipped and iteration continues; an
exception ends the loop and is caught and logged by the `except` arms
(lines 186-189), leaving the accumulated text and past displays intact. -/
def stream_loop : List StreamEvent → String → List String →
    String × List String × Option String
  | [], accumulated_text, displays => (accumulated_text, displays, none)
  | .chunk p :: rest, accumulated_text, displays =>
    if p ≠ "" then
      stream_loop rest (accumulated_text ++ p) (displays ++ [accumulated_text ++ p])
    else
      stream_loop rest accumulated_text displays
  | .err e :: _, accumulated_text, displays => (accumulated_text, displays, some e)

/-- `query_ollama` (lines 149-189): build the system+user messages, then
consume the stream. (The timing/token-count instrumentation is logging
only and is not modelled.) -/
def query_ollama (config : Config) (prompt : String)
    (events : List StreamEvent) : QueryResult :=
  let messages := [⟨"system", config.system⟩, ⟨"user", prompt⟩]
  let (accumulated_text, displays, errorLogged) := stream_loop events "" []
  ⟨messages, accumulated_text, displays, errorLogged⟩

/-- Observable outcome of `front_end` (lines 191-224): the disabled flag
gating the banner, text area and button; whether `check_model_status` was
invoked; the `st.error` message (empty = none shown); the final value of
`config['model']` (which the assignment on line 206 can make `None`). -/
structure FrontEndState where
  disabled : Bool
  modelCheckInvoked : Bool
  errorMsg : String
  configModel : Option String
deriving DecidableEq, Repr

/-- `front_end`'s status-reconciliation logic (lines 202-215): probe the
server; only when the probe says available, resolve the model, disabling
the request path when resolution yields `None` or `""`. -/
def front_end (config : Config) (ps : PsResult) (lr : ListResult) :
    FrontEndState :=
  let ollama_disabled_state := check_ollama_status ps
  if ollama_disabled_state = false then
    match check_model_status config.model lr with
    | none =>
      ⟨true, true, "There is no available model on Ollama server", none⟩
    | some m =>
      if m = "" then
        ⟨true, true, "There is no available model on Ollama server", some m⟩
      else
        ⟨false, true, "", some m⟩
  else
    ⟨true, false, "The Ollama server is not reachable", some config.model⟩

/-- Outcome of the `__main__` block: the process exits, or `front_end`
is started with the loaded configuration. -/
inductive MainOutcome where
  | exited
  | startedFrontEnd (config : Config)
deriving DecidableEq, Repr

/-- The candidate paths passed by `__main__` (line 227). -/
def main_paths : List String := ["/etc/tech-writer/prompts.yaml", "./prompts.yaml"]

/-- The `__main__` block (lines 226-231): `config = load_config(...)`;
`if config is None: ... exit()` else `front_end(config)`. `load_config`
returns a dict on every path, so the guard compares `some _` with `none`. -/
def main_step (fs : FS) (env : Env) : MainOutcome :=
  let config : Option Config := some (load_config fs env main_paths).1
  match config with
  | none => .exited
  | some c => .startedFrontEnd c

/-! ### Spec-side descriptions and shared lemmas -/

/-- The document a single candidate path contributes when it parses
successfully: `none` when opening or parsing fails. -/
def parsedDoc (fs : FS) (f : String) : Option YamlDoc :=
  match fs f with
  | .parsed (some d) => some d
  | .parsed none => some emptyYaml
  | _ => none

/-- The documents of the successfully parsed candidate files, in order. -/
def docsParsed (fs : FS) (l : List String) : List YamlDoc :=
  l.filterMap (parsedDoc fs)

/-- The last element of a list, or a default when the list is empty. -/
def lastD {α : Type} : List α → α → α
  | [], d => d
  | x :: xs, _ => lastD xs x

/-- The document of the LAST successfully parsed candidate file (the empty
document when no candidate parses). -/
def last_parsed (fs : FS) (l : List String) : YamlDoc :=
  lastD (docsParsed fs l) emptyYaml

/-- The field extraction of `load_yaml_file` (lines 43-51), applied to one
single document: `host`/`model` when present, and the system prompt from
the first message when it has role `"system"` and truthy content. -/
def apply_doc (config : Config) (yc : YamlDoc) : Config :=
  { host := yc.host.getD config.host
    model := yc.model.getD config.model
    system :=
      match yc.messages with
      | some (m0 :: _) =>
        if m0.role = some "system" then
          match m0.content with
          | some c => if c = "" then config.system else c
          | none => config.system
        else config.system
      | _ => config.system }

lemma yaml_while_eq (fs : FS) :
    ∀ (l : List String) (yc : YamlDoc),
      yaml_while fs l yc = (lastD (docsParsed fs l) yc, []) := by
  intro l
  induction l with
  | nil => intro yc; rfl
  | cons f rest ih =>
    intro yc
    cases h : fs f with
    | parsed d =>
      cases d with
      | some d' =>
        simp [yaml_while, h, ih, docsParsed, List.filterMap_cons, parsedDoc, lastD]
      | none =>
        simp [yaml_while, h, ih, docsParsed, List.filterMap_cons, parsedDoc, lastD]
    | missing =>
      simp [yaml_while, h, ih, docsParsed, List.filterMap_cons, parsedDoc]
    | yamlError m =>
      simp [yaml_while, h, ih, docsParsed, List.filterMap_cons, parsedDoc]
    | otherError m =>
      simp [yaml_while, h, ih, docsParsed, List.filterMap_cons, parsedDoc]

lemma load_yaml_file_eq (fs : FS) (config : Config) (l : List String) :
    load_yaml_file fs config l = (apply_doc config (last_parsed fs l), []) := by
  unfold load_yaml_file apply_doc last_parsed
  rw [yaml_while_eq]

lemma load_config_eq (fs : FS) (env : Env) (l : List String) :
    load_config fs env l
      = (load_env env (apply_doc set_defaults (last_parsed fs l)), []) := by
  simp only [load_config, load_yaml_file_eq]

/-! ### Concrete fixtures -/

/-- A file system with no file at any path. -/
def fsNone : FS := fun _ => .missing

/-- An environment with no variable set. -/
def envNone : Env := fun _ => none

/-- Two candidate files `"a"` and `"b"` that both parse, carrying
different `host` values. -/
def fsTwo : FS := fun p =>
  if p = "a" then .parsed (some ⟨some "hostA", none, none⟩)
  else if p = "b" then .parsed (some ⟨some "hostB", none, none⟩)
  else .missing

/-- An environment in which `OLLAMA_HOST` is set to the empty string. -/
def envEmptyHost : Env := fun n => if n = "OLLAMA_HOST" then some "" else none

/-- A single candidate file `"a"` that parses and carries `host: ""`. -/
def fsEmptyHost : FS := fun p =>
  if p = "a" then .parsed (some ⟨some "", none, none⟩) else .missing

/-! ### C1 — first-successfully-parsed-file-wins -/

/-- C1 counterexample: with candidates `["a", "b"]` both parsing, the
claim says the earlier file's `host` value `"hostA"` is used and the later
file's is ignored; the code's `while` loop has no `break`, so the result
host is `"hostB"`, the later file's value. -/
theorem C1_counterexample :
    (load_config fsTwo envNone ["a", "b"]).1.host = "hostB"
      ∧ "hostB" ≠ "hostA" :=
  ⟨rfl, by decide⟩

/-- C1 (amended): resolution does not stop at the first successfully
parsed file; each successful parse wholly replaces the previous document,
so the file-sourced values come from the LAST successfully parsed
candidate only — there is still no merging of fields across two distinct
files. -/
theorem C1_amended_last_parse_wins (fs : FS) (config : Config) (l : List String) :
    (load_yaml_file fs config l).1 = apply_doc config (last_parsed fs l) := by
  rw [load_yaml_file_eq]

/-! ### C2 — environment overrides -/

/-- C2 counterexample: with `OLLAMA_HOST` set to the empty string, the
claim says the override must not apply (variable not non-empty), leaving
the default host `"localhost:11434"`; the code's `os.getenv` applies the
override whenever the variable is set, so the host becomes `""`. -/
theorem C2_counterexample :
    (load_config fsNone envEmptyHost []).1.host = ""
      ∧ "" ≠ "localhost:11434" :=
  ⟨rfl, by decide⟩

/-- C2 (amended): the environment step overrides `host` and `model`
independently whenever the corresponding variable is SET — including when
it is set to the empty string — and the system prompt is never changed by
any environment variable. -/
theorem C2_amended_env_override (fs : FS) (env : Env) (l : List String) :
    (load_config fs env l).1.host
        = (env "OLLAMA_HOST").getD (load_config fs envNone l).1.host
      ∧ (load_config fs env l).1.model
        = (env "MODEL_NAME").getD (load_config fs envNone l).1.model
      ∧ (load_config fs env l).1.system = (load_config fs envNone l).1.system := by
  simp [load_config_eq, load_env, envNone]

/-! ### C10 — the caller's path list is emptied -/

/-- C10: `load_config` consumes its `filepath_list` argument entirely:
every element is popped from the front during resolution, so the list the
caller passed in is empty after the call returns, regardless of which
files exist or parse. -/
theorem C10_list_emptied (fs : FS) (env : Env) (l : List String) :
    (load_config fs env l).2 = [] := by
  rw [load_config_eq]

/-! ### C3 — non-emptiness of the resolved configuration -/

/-- C3 counterexample: a candidate file that parses and carries `host: ""`
makes the resolved host the empty string — the claim's guarantee that all
three fields are non-empty for every file content fails. -/
theorem C3_counterexample :
    (load_config fsEmptyHost envNone ["a"]).1.host = "" := rfl

/-- C3 (amended): the resolved system prompt is always non-empty (the
default is non-empty and a file can only replace it with truthy content),
and `host` and `model` are non-empty provided every value actually
supplied for them — by the last successfully parsed file or by a set
environment variable — is non-empty; a file or environment value that is
the empty string is taken verbatim. -/
theorem C3_amended_nonempty (fs : FS) (env : Env) (l : List String)
    (hh : ∀ s, env "OLLAMA_HOST" = some s → s ≠ "")
    (hm : ∀ s, env "MODEL_NAME" = some s → s ≠ "")
    (hfh : ∀ s, (last_parsed fs l).host = some s → s ≠ "")
    (hfm : ∀ s, (last_parsed fs l).model = some s → s ≠ "") :
    (load_config fs env l).1.host ≠ ""
      ∧ (load_config fs env l).1.model ≠ ""
      ∧ (load_config fs env l).1.system ≠ "" := by
  rw [load_config_eq]
  refine ⟨?_, ?_, ?_⟩
  · simp only [load_env]
    cases he : env "OLLAMA_HOST" with
    | some s => simpa using hh s he
    | none =>
      simp only [Option.getD_none, apply_doc]
      cases hf : (last_parsed fs l).host with
      | some s => simpa using hfh s hf
      | none => simp [set_defaults]
  · simp only [load_env]
    cases he : env "MODEL_NAME" with
    | some s => simpa using hm s he
    | none =>
      simp only [Option.getD_none, apply_doc]
      cases hf : (last_parsed fs l).model with
      | some s => simpa using hfm s hf
      | none => simp [set_defaults]
  · simp only [load_env, apply_doc]
    cases hms : (last_parsed fs l).messages with
    | none => simp [set_defaults, default_system_prompt]
    | some ms =>
      cases ms with
      | nil => simp [set_defaults, default_system_prompt]
      | cons m0 rest =>
        simp only []
        by_cases hr : m0.role = some "system"
        · simp only [hr, if_pos rfl]
          cases hc : m0.content with
          | none => simp [set_defaults, default_system_prompt]
          | some c =>
            by_cases hce : c = ""
            · simp [hce, set_defaults, default_system_prompt]
            · simp [hce]
        · simp [hr, set_defaults, default_system_prompt]

/-- C3 witness: at a file system with no files and an empty environment,
the hypotheses hold vacuously and all three resolved fields are
non-empty. -/
theorem C3_amended_nonempty_witness :
    (load_config fsNone envNone ["x"]).1.host ≠ ""
      ∧ (load_config fsNone envNone ["x"]).1.model ≠ ""
      ∧ (load_config fsNone envNone ["x"]).1.system ≠ "" :=
  C3_amended_nonempty fsNone envNone ["x"]
    (fun _ h => nomatch h) (fun _ h => nomatch h)
    (fun _ h => nomatch h) (fun _ h => nomatch h)

/-! ### C4 — behaviour when no configuration file is found -/

/-- C4 counterexample: with no file at any candidate path, the claim says
the application logs an error and terminates without starting the front
end; in the code `load_config` returns the default dict (never `None`),
the `is None` guard does not fire, and `front_end` IS started. -/
theorem C4_counterexample :
    main_step fsNone envNone = .startedFrontEnd set_defaults
      ∧ main_step fsNone envNone ≠ .exited :=
  ⟨rfl, fun h => nomatch h⟩

/-- C4 (amended): the `config is None` guard in `__main__` is unreachable
because `load_config` always returns a dict; when no candidate file
parses, the application starts the front end with the default
configuration (modulo environment overrides) instead of terminating. -/
theorem C4_amended_front_end_runs (fs : FS) (env : Env)
    (h : ∀ f ∈ main_paths, parsedDoc fs f = none) :
    main_step fs env = .startedFrontEnd (load_env env set_defaults) := by
  have h1 : parsedDoc fs "/etc/tech-writer/prompts.yaml" = none := by
    apply h; simp [main_paths]
  have h2 : parsedDoc fs "./prompts.yaml" = none := by
    apply h; simp [main_paths]
  simp only [main_step, load_config_eq]
  have hlp : last_parsed fs main_paths = emptyYaml := by
    simp [last_parsed, docsParsed, main_paths, List.filterMap_cons, h1, h2, lastD]
  rw [hlp]
  rfl

/-- C4 witness: at the file system with no files and the empty
environment, the amended statement holds. -/
theorem C4_amended_front_end_runs_witness :
    main_step fsNone envNone = .startedFrontEnd (load_env envNone set_defaults) :=
  C4_amended_front_end_runs fsNone envNone (fun _ _ => rfl)

/-! ### C5 / C6 — streaming accumulation and mid-stream failure -/

/-- Starting from accumulated text `acc`, the sequence of display calls the
spec prescribes: one call per non-empty fragment, each carrying the full
running concatenation of the non-empty fragment contents so far. -/
def cumulative_calls (acc : String) : List String → List String
  | [] => []
  | p :: ps =>
    if p = "" then cumulative_calls acc ps
    else (acc ++ p) :: cumulative_calls (acc ++ p) ps

/-- Starting from accumulated text `acc`, the final accumulated text: the
concatenation, in arrival order, of the non-empty fragment contents. -/
def concat_nonempty (acc : String) : List String → String
  | [] => acc
  | p :: ps =>
    if p = "" then concat_nonempty acc ps
    else concat_nonempty (acc ++ p) ps

lemma concat_nonempty_join (ps : List String) :
    ∀ acc : String,
      concat_nonempty acc ps = acc ++ String.join (ps.filter (fun p => p ≠ "")) := by
  induction ps with
  | nil => intro acc; simp [concat_nonempty, String.join]
  | cons p ps ih =>
    intro acc
    by_cases hp : p = ""
    · simp [concat_nonempty, hp, List.filter_cons, ih]
    · rw [concat_nonempty, if_neg hp, ih (acc ++ p)]
      apply String.ext
      simp [List.filter_cons, hp]

lemma cumulative_calls_length (ps : List String) :
    ∀ acc : String,
      (cumulative_calls acc ps).length = (ps.filter (fun p => p ≠ "")).length := by
  induction ps with
  | nil => intro acc; simp [cumulative_calls]
  | cons p ps ih =>
    intro acc
    by_cases hp : p = ""
    · simp [cumulative_calls, hp, List.filter_cons, ih]
    · simp [cumulative_calls, hp, List.filter_cons, ih]

lemma stream_loop_chunks (ps : List String) :
    ∀ (acc : String) (outs : List String),
      stream_loop (ps.map .chunk) acc outs
        = (concat_nonempty acc ps, outs ++ cumulative_calls acc ps, none) := by
  induction ps with
  | nil => intro acc outs; simp [stream_loop, concat_nonempty, cumulative_calls]
  | cons p ps ih =>
    intro acc outs
    by_cases hp : p = ""
    · simp [stream_loop, hp, ih, concat_nonempty, cumulative_calls]
    · simp [stream_loop, hp, ih, concat_nonempty, cumulative_calls]

lemma stream_loop_err (ps : List String) (e : String) (rest : List StreamEvent) :
    ∀ (acc : String) (outs : List String),
      stream_loop (ps.map .chunk ++ .err e :: rest) acc outs
        = (concat_nonempty acc ps, outs ++ cumulative_calls acc ps, some e) := by
  induction ps with
  | nil => intro acc outs; simp [stream_loop, concat_nonempty, cumulative_calls]
  | cons p ps ih =>
    intro acc outs
    by_cases hp : p = ""
    · simp [stream_loop, hp, ih, concat_nonempty, cumulative_calls]
    · simp [stream_loop, hp, ih, concat_nonempty, cumulative_calls]

/-- C5: on a finite stream of fragments (no error), the display callback
is invoked exactly once per non-empty fragment, each time with the full
accumulated text so far (the running concatenation of the non-empty
contents, in arrival order); empty fragments are skipped without ending
the operation, which ends on stream exhaustion with no failure. -/
theorem C5_streaming_cumulative (config : Config) (prompt : String)
    (ps : List String) :
    (query_ollama config prompt (ps.map .chunk)).displays = cumulative_calls "" ps
      ∧ (query_ollama config prompt (ps.map .chunk)).displays.length
          = (ps.filter (fun p => p ≠ "")).length
      ∧ (query_ollama config prompt (ps.map .chunk)).accumulated
          = String.join (ps.filter (fun p => p ≠ ""))
      ∧ (query_ollama config prompt (ps.map .chunk)).errorLogged = none := by
  have h := stream_loop_chunks ps "" []
  refine ⟨?_, ?_, ?_, ?_⟩
  · simp [query_ollama, h]
  · simp [query_ollama, h, cumulative_calls_length]
  · simp [query_ollama, h, concat_nonempty_join, String.empty_append]
  · simp [query_ollama, h]

/-- C6: on a transport or protocol error after `ps` fragments, the
accumulated text and the display calls already made are exactly those of
the error-free run of the same fragments (no rollback, nothing appended
by the error), and the failure is surfaced as one distinct signal
(`errorLogged = some e`). -/
theorem C6_midstream_error (config : Config) (prompt : String)
    (ps : List String) (e : String) (rest : List StreamEvent) :
    (query_ollama config prompt (ps.map .chunk ++ .err e :: rest)).accumulated
        = (query_ollama config prompt (ps.map .chunk)).accumulated
      ∧ (query_ollama config prompt (ps.map .chunk ++ .err e :: rest)).displays
        = (query_ollama config prompt (ps.map .chunk)).displays
      ∧ (query_ollama config prompt (ps.map .chunk ++ .err e :: rest)).errorLogged
        = some e := by
  have h1 := stream_loop_err ps e rest "" []
  have h2 := stream_loop_chunks ps "" []
  refine ⟨?_, ?_, ?_⟩ <;> simp [query_ollama, h1, h2]

/-! ### C7 — model availability resolution -/

/-- Modelled from the spec's words: the name one catalog entry yields,
trying each known field name (`model`, then `name`) and yielding nothing
when no field gives a (truthy) name. -/
def entry_name_spec : ModelEntry → Option String
  | .dict mo na =>
    match truthy mo with
    | some s => some s
    | none => truthy na
  | .obj s => truthy (some s)
  | .other => none

/-- Modelled from the spec's words: given the extracted name list, return
absent on an empty list, the requested name unchanged when it appears,
and the first extracted entry otherwise. -/
def resolve_model_spec (requested : String) : List String → Option String
  | [] => none
  | h :: t => if requested ∈ h :: t then some requested else some h

/-- Modelled from the spec's words: the full resolver — absent when the
listing fails (exception or missing `models` key), otherwise
`resolve_model_spec` applied to the per-entry extracted names. -/
def resolve_model_full_spec (requested : String) (lr : ListResult) :
    Option String :=
  match lr with
  | .err _ => none
  | .ok resp =>
    match resp.models? with
    | none => none
    | some ml => resolve_model_spec requested (ml.filterMap entry_name_spec)

lemma entry_name_eq (m : ModelEntry) :
    truthy (entry_raw_name m) = entry_name_spec m := by
  cases m with
  | dict mo na =>
    cases mo with
    | none => simp [entry_raw_name, pyOr, entry_name_spec, truthy]
    | some s =>
      by_cases hs : s = "" <;>
        simp [entry_raw_name, pyOr, entry_name_spec, truthy, hs]
  | obj s => simp [entry_raw_name, entry_name_spec]
  | other => simp [entry_raw_name, entry_name_spec, truthy]

lemma model_names_loop_eq (ml : List ModelEntry) :
    ∀ acc : List String,
      model_names_loop ml acc = acc ++ ml.filterMap entry_name_spec := by
  induction ml with
  | nil => intro acc; simp [model_names_loop]
  | cons m rest ih =>
    intro acc
    rw [model_names_loop]
    cases h : truthy (entry_raw_name m) with
    | some s =>
      rw [entry_name_eq] at h
      simp [ih, List.filterMap_cons, h]
    | none =>
      rw [entry_name_eq] at h
      simp [ih, List.filterMap_cons, h]

/-- C7: `check_model_status` refines the spec's resolver: listing failure
or a missing `models` key gives absent; the extracted name list is built
per entry by trying the `model` field then the `name` field and skipping
entries yielding no name; an empty extracted list gives absent; a
requested name present in the list is returned unchanged; otherwise the
first extracted entry is returned. -/
theorem C7_model_resolution (model : String) (lr : ListResult) :
    check_model_status model lr = resolve_model_full_spec model lr := by
  cases lr with
  | err e => rfl
  | ok resp =>
    cases hm : resp.models? with
    | none => simp [check_model_status, resolve_model_full_spec, hm]
    | some ml =>
      simp only [check_model_status, resolve_model_full_spec, hm,
        model_names_loop_eq, List.nil_append]
      cases hnames : ml.filterMap entry_name_spec with
      | nil => simp [resolve_model_spec]
      | cons h t =>
        by_cases hmem : model ∈ h :: t
        · simp [resolve_model_spec, hmem]
        · simp [resolve_model_spec, hmem]

/-! ### C8 — health check -/

/-- C8: the health check is total over every probe outcome (the embedding
returns a boolean for all of them — both `except` arms convert the
exception to the flag), a successful probe yields `disabled = false`, and
every failure outcome yields `disabled = true`. -/
theorem C8_health_check_total (r : PsResult) :
    check_ollama_status r = false ↔ r = .ok := by
  cases r <;> simp [check_ollama_status]

/-! ### C9 — failed health check gates the model check -/

/-- C9: whenever the health probe reports the server unavailable
(`disabled = true`), `front_end` does not invoke `check_model_status` and
the request path reports `disabled = true`. -/
theorem C9_gating (config : Config) (ps : PsResult) (lr : ListResult)
    (h : check_ollama_status ps = true) :
    (front_end config ps lr).modelCheckInvoked = false
      ∧ (front_end config ps lr).disabled = true := by
  simp [front_end, h]

/-- C9 witness: a concrete transport error on the probe.  -/
theorem C9_gating_witness :
    check_ollama_status (.responseError "connection refused") = true
      ∧ ((front_end set_defaults (.responseError "connection refused")
            (.ok ⟨some []⟩)).modelCheckInvoked = false
          ∧ (front_end set_defaults (.responseError "connection refused")
              (.ok ⟨some []⟩)).disabled = true) :=
  ⟨rfl, C9_gating set_defaults (.responseError "connection refused")
    (.ok ⟨some []⟩) rfl⟩
